import Mathlib

/-!
Verification of the composer-jericho core against its specification.

Part 1 embeds `ComposerIntegration.sendToComposer` (the capture delivery
pipeline): the retry loop that drives a screenshot and/or a formatted log
bundle through the clipboard, verifying each artifact and retrying with a
bounded budget.  The clipboard and the destination-open command are external
collaborators; they are represented by stub outcome functions indexed by the
call number, so a run of the loop is a pure function of the stub.

Part 2 (below) embeds `BrowserMonitor`: the session state machine, the log
buffers (modelled as a store of array references, so that JavaScript array
aliasing is visible), the protocol event handlers and the disconnect path.
-/

/-- Retry budget of `sendToComposer`: `const maxRetries = 2`
(two retries beyond the first attempt). -/
def maxRetries : Nat := 2

/-- Outcomes of the external collaborators of `sendToComposer`, indexed by the
call number: `openOk n` is the outcome of the n-th execution of the
destination-open command inside `openComposer`, `imgVerify n` the outcome of
the n-th image clipboard verification, `txtVerify n` the outcome of the n-th
text clipboard verification. -/
structure SendStubs where
  openOk : Nat → Bool
  imgVerify : Nat → Bool
  txtVerify : Nat → Bool

/-- Mutable state of one `sendToComposer` call: the four loop-local variables
of the source, the instance field `composerOpened`, and instrumentation
counters (number of open-command executions and of clipboard verifications
performed so far). -/
structure SendState where
  imageAttempt : Nat
  textAttempt : Nat
  imageSuccess : Bool
  textSuccess : Bool
  composerOpened : Bool
  openCmdCount : Nat
  imgVerifyCalls : Nat
  txtVerifyCalls : Nat
deriving DecidableEq, Repr

/-- State at entry of `sendToComposer` (counters zeroed; `composerOpened`
starts false on a fresh instance). -/
def initSendState : SendState :=
  { imageAttempt := 0, textAttempt := 0, imageSuccess := false,
    textSuccess := false, composerOpened := false, openCmdCount := 0,
    imgVerifyCalls := 0, txtVerifyCalls := 0 }

/-- Embedding of `openComposer()`: returns at once if `composerOpened` is set; otherwise
executes the destination-open command (counted), marking `composerOpened` on
success; a failure of the command is caught inside `openComposer` (an error
toast is shown) and never propagates. -/
def openComposer (st : SendStubs) (s : SendState) : SendState :=
  if s.composerOpened then s
  else if st.openOk s.openCmdCount then
    { s with openCmdCount := s.openCmdCount + 1, composerOpened := true }
  else
    { s with openCmdCount := s.openCmdCount + 1 }

/-- Error message thrown when the image retry budget is exhausted. -/
def imageFailMsg : String := "Failed to send image"

/-- Error message thrown when the log-text retry budget is exhausted
(`Failed to send logs: ...`). -/
def textFailMsg : String := "Failed to send logs"

/-- Outcome of one iteration of the `while` body of `sendToComposer`:
normal fallthrough to the next guard test, successful return, or a thrown
error.  In every case the carried state is the state after the `finally`
block, which resets `composerOpened`. -/
inductive IterOut where
  | again (s : SendState)
  | done (s : SendState)
  | failed (msg : String) (s : SendState)
deriving DecidableEq, Repr

/-- State carried by an iteration outcome. -/
def IterOut.state : IterOut → SendState
  | .again s => s
  | .done s => s
  | .failed _ s => s

/-- Image block of the `while` body (`if (screenshot && !imageSuccess)`):
clear clipboard, stage and paste the image, then verify the clipboard
content (counted); on failure, throw if the attempt counter already equals
`maxRetries`, otherwise increment it and delay.  Returns the updated state
and the thrown message, if any. -/
def imageStep (st : SendStubs) (screenshot : Bool) (s1 : SendState) :
    SendState × Option String :=
  if screenshot ∧ ¬s1.imageSuccess then
    let sv := { s1 with imgVerifyCalls := s1.imgVerifyCalls + 1 }
    if st.imgVerify s1.imgVerifyCalls then
      ({ sv with imageSuccess := true }, none)
    else if s1.imageAttempt = maxRetries then (sv, some imageFailMsg)
    else ({ sv with imageAttempt := sv.imageAttempt + 1 }, none)
  else (s1, none)

/-- Text block of the `while` body (`if (formattedLogs && !textSuccess)`):
clear clipboard, place the formatted logs, paste, then
`verifyClipboardContent("text")` (counted); failure handling as for the
image. -/
def textStep (st : SendStubs) (hasLogs : Bool) (s2 : SendState) :
    SendState × Option String :=
  if hasLogs ∧ ¬s2.textSuccess then
    let sv := { s2 with txtVerifyCalls := s2.txtVerifyCalls + 1 }
    if st.txtVerify s2.txtVerifyCalls then
      ({ sv with textSuccess := true }, none)
    else if s2.textAttempt = maxRetries then (sv, some textFailMsg)
    else ({ sv with textAttempt := sv.textAttempt + 1 }, none)
  else (s2, none)

/-- One iteration of the `while` body of `sendToComposer`.  `screenshot` is
the truthiness of the `screenshot` argument, `hasLogs` the truthiness of
`formattedLogs` (non-empty whenever `logs` was supplied).  The body opens the
composer, runs the image block and then the text block, and on the success
check fires the notification and returns.  The `finally` clause resets
`composerOpened` on every exit of the body, including thrown errors and the
success return. -/
def sendIter (st : SendStubs) (screenshot hasLogs : Bool) (s0 : SendState) :
    IterOut :=
  let r2 := imageStep st screenshot (openComposer st s0)
  match r2.2 with
  | some msg => .failed msg { r2.1 with composerOpened := false }
  | none =>
    let r3 := textStep st hasLogs r2.1
    match r3.2 with
    | some msg => .failed msg { r3.1 with composerOpened := false }
    | none =>
      if (¬screenshot ∨ r3.1.imageSuccess) ∧ (¬hasLogs ∨ r3.1.textSuccess) then
        .done { r3.1 with composerOpened := false }
      else
        .again { r3.1 with composerOpened := false }

/-- Overall outcome of a `sendToComposer` call: `ok` is the successful
`return` after the success notification, `noop` is the `while` loop being
skipped or exiting without a success return (only possible when no artifact
was requested), `err` is a propagated error, `outOfFuel` marks exhaustion of
the fuel of the loop embedding (shown unreachable for the fuel used). -/
inductive SendResult where
  | ok
  | noop
  | err (msg : String)
  | outOfFuel
deriving DecidableEq, Repr

/-- The `while` loop of `sendToComposer`, by fuel.  The guard is the source's
`(screenshot && !imageSuccess && imageAttempt <= maxRetries) ||
(formattedLogs && !textSuccess && textAttempt <= maxRetries)`. -/
def sendLoop (st : SendStubs) (screenshot hasLogs : Bool) :
    Nat → SendState → SendState × SendResult
  | 0, s => (s, .outOfFuel)
  | fuel + 1, s =>
    if (screenshot ∧ ¬s.imageSuccess ∧ s.imageAttempt ≤ maxRetries) ∨
        (hasLogs ∧ ¬s.textSuccess ∧ s.textAttempt ≤ maxRetries) then
      match sendIter st screenshot hasLogs s with
      | .done s1 => (s1, .ok)
      | .failed msg s1 => (s1, .err msg)
      | .again s1 => sendLoop st screenshot hasLogs fuel s1
    else (s, .noop)

/-- Fuel for the loop embedding: every non-terminal iteration increments at
least one attempt counter, each bounded by `maxRetries`, so 6 iterations can
never be exceeded. -/
def sendFuel : Nat := 8

/-- Embedding of `sendToComposer(screenshot?, logs?)` as a function of the
stub outcomes: runs the retry loop from the entry state. -/
def sendToComposer (st : SendStubs) (screenshot hasLogs : Bool) :
    SendState × SendResult :=
  sendLoop st screenshot hasLogs sendFuel initSendState

/-- Run-time invariant of the image artefact counters: while the image has not
succeeded the number of verifications performed equals the attempt counter;
once it has succeeded it exceeds it by one; the attempt counter never passes
`maxRetries`. -/
def ImgInv (s : SendState) : Prop :=
  (s.imageSuccess = false → s.imgVerifyCalls = s.imageAttempt) ∧
  (s.imageSuccess = true → s.imgVerifyCalls = s.imageAttempt + 1) ∧
  s.imageAttempt ≤ maxRetries

/-- Run-time invariant of the text artefact counters, mirror of `ImgInv`. -/
def TxtInv (s : SendState) : Prop :=
  (s.textSuccess = false → s.txtVerifyCalls = s.textAttempt) ∧
  (s.textSuccess = true → s.txtVerifyCalls = s.textAttempt + 1) ∧
  s.textAttempt ≤ maxRetries

/-- Joint invariant of the loop state. -/
def SendInv (s : SendState) : Prop := ImgInv s ∧ TxtInv s

/-- Stub for the C6 counterexample: the open command always succeeds, and
image verification fails on the first attempt and succeeds afterwards. -/
def openTwiceStub : SendStubs :=
  ⟨fun _ => true, fun n => decide (n ≠ 0), fun _ => true⟩

/-- Kinds of a normalized browser console record (`BrowserLog.type` of
`types/index.ts`). -/
inductive LogType where
  | log
  | warn
  | error
  | info
  | debug
deriving DecidableEq, Repr

/-- The `BrowserLog` record of `types/index.ts`. -/
structure BrowserLog where
  type : LogType
  text : String
  timestamp : Nat
deriving DecidableEq, Repr

/-- The `NetworkRequest` record of `types/index.ts` (`error` is an optional field). -/
structure NetworkRequest where
  url : String
  status : Nat
  error : Option String
  timestamp : Nat
deriving DecidableEq, Repr

/-- The `MonitoredPage` record of `types/index.ts`. -/
structure MonitoredPage where
  title : String
  url : String
  id : String
deriving DecidableEq, Repr

/-- Loosely typed protocol value carried in a remote object's `value` field. -/
inductive JsVal where
  | undef
  | null
  | bool (b : Bool)
  | num (n : Int)
  | str (s : String)
deriving DecidableEq, Repr

/-- JavaScript `String(v)` rendering of a protocol value. -/
def jsDisplay : JsVal → String
  | .undef => "undefined"
  | .null => "null"
  | .bool b => if b then "true" else "false"
  | .num n => toString n
  | .str s => s

/-- JavaScript truthiness of a protocol value. -/
def jsTruthy : JsVal → Bool
  | .undef => false
  | .null => false
  | .bool b => b
  | .num n => decide (n ≠ 0)
  | .str s => decide (s ≠ "")

/-- One property of a protocol object preview (`name`, optional string
`value`). -/
structure PropertyPreview where
  name : String
  value : Option String
deriving DecidableEq, Repr

/-- Protocol object preview: optional `subtype`, the `properties` array
(always supplied by the protocol) and an optional `description`. -/
structure ObjectPreview where
  subtype : Option String
  properties : List PropertyPreview
  description : Option String
deriving DecidableEq, Repr

/-- Protocol remote object, the element type of a console-API event's `args`
array. -/
structure RemoteObject where
  type : String
  subtype : Option String
  value : Option JsVal
  description : Option String
  preview : Option ObjectPreview
deriving DecidableEq, Repr

/-- Template-string rendering of an optional preview-property value
(`undefined` prints as the word). -/
def optStr : Option String → String
  | some v => v
  | none => "undefined"

/-- JavaScript `x || fallback` on an optional description. -/
def descOr (d : Option String) (fallback : String) : String :=
  match d with
  | some v => if v = "" then fallback else v
  | none => fallback

/-- Rendering of an `object` argument that carries a preview: the `array`
subtype lists indexed entries; otherwise the named properties are listed
(the protocol always supplies a `properties` array and a JavaScript array is
always truthy, so the `description` fallback of the source is dead). -/
def formatObjectPreview (preview : ObjectPreview) : String :=
  if preview.subtype = some "array" then
    let items := preview.properties.enum.map
      (fun pi => toString pi.1 ++ ": " ++ optStr pi.2.value)
    "Array(" ++ toString preview.properties.length ++ ") [\n    " ++
      String.intercalate ",\n    " items ++ "\n]"
  else
    let props := preview.properties.map (fun p =>
      p.name ++ ": " ++ (match p.value with
        | some v => "\"" ++ v ++ "\""
        | none => "undefined"))
    "Object \x7b" ++ String.intercalate ", " props ++ "\x7d"

/-- Lookup of a named property value in an optional preview
(`arg.preview?.properties?.find(...)?.value || ""`). -/
def previewPropValue (preview : Option ObjectPreview) (name : String) :
    String :=
  match preview with
  | some pr =>
    match pr.properties.find? (fun p => p.name = name) with
    | some p => optStr p.value
    | none => ""
  | none => ""

/-- Whether a description is truthy and contains a newline
(`arg.description && arg.description.includes("\n")`). -/
def descHasNewline : Option String → Bool
  | some d => decide (d ≠ "") && d.contains '\n'
  | none => false

/-- Rendering of an `error`-subtyped argument: a multi-line description wins;
otherwise `Error: <message>` and the stack when both are present in the
preview; otherwise description, value or the word `Error`. -/
def formatErrorArg (arg : RemoteObject) : String :=
  if descHasNewline arg.description then descOr arg.description ""
  else
    let stack := previewPropValue arg.preview "stack"
    let message := previewPropValue arg.preview "message"
    if stack ≠ "" ∧ message ≠ "" then
      "Error: " ++ message ++ "\n" ++ stack
    else
      match arg.description with
      | some d =>
        if d ≠ "" then d
        else match arg.value with
          | some v => if jsTruthy v then jsDisplay v else "Error"
          | none => "Error"
      | none =>
        match arg.value with
        | some v => if jsTruthy v then jsDisplay v else "Error"
        | none => "Error"

/-- Fallthrough rendering of an argument
(`arg.value || arg.description || ""`). -/
def formatFallback (arg : RemoteObject) : String :=
  match arg.value with
  | some v => if jsTruthy v then jsDisplay v else descOr arg.description ""
  | none => descOr arg.description ""

/-- Rendering of one console-API argument, following the branch order of the
source: object with preview, function, undefined, string, number or boolean,
symbol, error subtype, fallthrough. -/
def formatArg (arg : RemoteObject) : String :=
  if arg.type = "object" ∧ arg.preview.isSome then
    formatObjectPreview
      (arg.preview.getD { subtype := none, properties := [], description := none })
  else if arg.type = "function" then descOr arg.description "function"
  else if arg.type = "undefined" then "undefined"
  else if arg.type = "string" then jsDisplay (arg.value.getD JsVal.undef)
  else if arg.type = "number" ∨ arg.type = "boolean" then
    jsDisplay (arg.value.getD JsVal.undef)
  else if arg.type = "symbol" then descOr arg.description "Symbol()"
  else if arg.subtype = some "error" then formatErrorArg arg
  else formatFallback arg

/-- Kind mapping of a console-API event
(`warning` becomes `warn`; `debug`, `log`, `info`, `error` pass through;
anything else defaults to `log`). -/
def consoleApiLogType (t : String) : LogType :=
  if t = "warning" then .warn
  else if t = "debug" then .debug
  else if t = "log" then .log
  else if t = "info" then .info
  else if t = "error" then .error
  else .log

/-- Kind mapping of a log-entry event
(`warning` becomes `warn`; `error`, `info` pass through; anything else
defaults to `log`). -/
def entryLogType (level : String) : LogType :=
  if level = "warning" then .warn
  else if level = "error" then .error
  else if level = "info" then .info
  else .log

/-- A console protocol event: a `Runtime.consoleAPICalled` invocation (type
plus argument array) or a `Log.entryAdded` entry (level plus text); `now` is
the wall-clock value `Date.now()` reads at normalization time. -/
inductive ConsoleEvent where
  | apiCalled (ty : String) (args : List RemoteObject) (now : Nat)
  | entryAdded (level : String) (text : String) (now : Nat)
deriving DecidableEq, Repr

/-- The `BrowserLog` a console event normalizes to: the argument renderings
joined by single spaces for a console-API event, the raw text for a log
entry; both stamped at normalization time. -/
def normalizeConsoleEvent : ConsoleEvent → BrowserLog
  | .apiCalled ty args now =>
    { type := consoleApiLogType ty,
      text := String.intercalate " " (args.map formatArg),
      timestamp := now }
  | .entryAdded level text now =>
    { type := entryLogType level, text := text, timestamp := now }

/-- Stubbed page offered by the transport: whether reading its title and URL
succeeds, and the values read. -/
structure PageStub where
  readOk : Bool
  title : String
  url : String
deriving DecidableEq, Repr

/-- State of the `BrowserMonitor` singleton, together with the stub outcomes
of its external collaborators and instrumentation counters.  JavaScript
arrays are modelled through a store: `consoleMem` and `networkMem` map an
array reference to its contents, and `consoleRef` and `networkRef` are the
references currently held by the `consoleLogs` and `networkLogs` fields; a
push mutates the store at the held reference, while `clearLogs` installs
fresh references, so array aliasing behaves exactly as in the source.
`openCount` counts protocol-channel creations, `closeCount` counts channel
detach calls, and the three `Fires` counters count firings of the
disconnect, connection-state-change and new-log notification channels. -/
structure MonState where
  connectOk : Bool
  pages : List PageStub
  selection : Option Nat
  enableOk : Bool
  detachOk : Bool
  browserDisconnectOk : Bool
  browser : Bool
  activePage : Option MonitoredPage
  isConnected : Bool
  healthCheck : Bool
  consoleMem : Nat → List BrowserLog
  networkMem : Nat → List NetworkRequest
  consoleRef : Nat
  networkRef : Nat
  openCount : Nat
  closeCount : Nat
  disconnectFires : Nat
  connStateFires : Nat
  newLogFires : Nat

/-- Store update at one reference. -/
def memWrite {α : Type} (m : Nat → α) (r : Nat) (v : α) : Nat → α :=
  fun q => if q = r then v else m q

/-- The `LogData` object returned by `getLogs()`: it holds the references to
the live buffer arrays, not copies of their contents. -/
structure LogDataRef where
  console : Nat
  network : Nat
deriving DecidableEq, Repr

/-- Embedding of `getLogs()`: returns `{ console: this.consoleLogs, network:
this.networkLogs }` — the references currently held — and leaves the state
untouched. -/
def getLogs (s : MonState) : LogDataRef × MonState :=
  ({ console := s.consoleRef, network := s.networkRef }, s)

/-- What a holder of a `LogData` observes in it at a given moment: the
current contents of the referenced arrays. -/
def readLogs (s : MonState) (r : LogDataRef) :
    List BrowserLog × List NetworkRequest :=
  (s.consoleMem r.console, s.networkMem r.network)

/-- Append of a console record (`this.consoleLogs.push(log)` followed by
`this.newLogEmitter.fire(log)`): appends to
the array behind the held reference and broadcasts the record. -/
def pushConsoleLog (l : BrowserLog) (s : MonState) : MonState :=
  { s with
    consoleMem :=
      memWrite s.consoleMem s.consoleRef (s.consoleMem s.consoleRef ++ [l]),
    newLogFires := s.newLogFires + 1 }

/-- Append of a network record (`this.networkLogs.push(request)`) to the
array behind the held reference; the broadcast goes to the Node event
emitter, not to the `onNewLog` channel. -/
def pushNetworkLog (r : NetworkRequest) (s : MonState) : MonState :=
  { s with
    networkMem :=
      memWrite s.networkMem s.networkRef (s.networkMem s.networkRef ++ [r]) }

/-- Embedding of `clearLogs()`: assigns fresh empty arrays to both buffer fields (the old
arrays stay in the store, still reachable through any previously returned
`LogData`). -/
def clearLogs (s : MonState) : MonState :=
  { s with
    consoleRef := s.consoleRef + 1,
    consoleMem := memWrite s.consoleMem (s.consoleRef + 1) [],
    networkRef := s.networkRef + 1,
    networkMem := memWrite s.networkMem (s.networkRef + 1) [] }

/-- Embedding of `updateConnectionState()`: recomputes the connection flag
from the session (`this.activePage !== null`) and fires the state-change
channel; the `setContext` command and the status-bar update are external
effects. -/
def updateConnectionState (s : MonState) : MonState :=
  { s with
    isConnected := s.activePage.isSome,
    connStateFires := s.connStateFires + 1 }

/-- Embedding of `clearHealthCheck()`: cancels the interval if one is set. -/
def clearHealthCheck (s : MonState) : MonState :=
  if s.healthCheck then { s with healthCheck := false } else s

/-- Embedding of `this.activePage.client.detach()`: counted as a close of
the protocol channel; the stubbed outcome reports a failure as an error
value. -/
def clientDetach (s : MonState) : MonState × Option String :=
  ({ s with closeCount := s.closeCount + 1 },
    if s.detachOk then none else some "detach failed")

/-- Embedding of `stopMonitoring()`: when a session exists, detaches its protocol channel
(the call sits in a try block whose catch swallows the error value) and
clears the session; otherwise does nothing. -/
def stopMonitoring (s : MonState) : MonState :=
  if s.activePage.isSome then
    { (clientDetach s).1 with activePage := none }
  else s

/-- Embedding of `this.browser.disconnect()`: the stubbed outcome reports a
failure as an error value, which the source swallows with a catch. -/
def browserDisconnectOp (s : MonState) : MonState × Option String :=
  (s, if s.browserDisconnectOk then none else some "browser disconnect failed")

/-- Embedding of `disconnect()`: cancels the liveness check, tears the session down,
releases the browser connection (failure swallowed), recomputes the
connection flag (which fires the state-change channel) and fires the
distinct disconnected channel.  Every fallible call inside is wrapped in a
catch, so the operation itself never raises. -/
def disconnect (s : MonState) : MonState :=
  let s1 := stopMonitoring (clearHealthCheck s)
  let s2 :=
    if s1.browser then { (browserDisconnectOp s1).1 with browser := false }
    else s1
  let s3 := updateConnectionState s2
  { s3 with disconnectFires := s3.disconnectFires + 1 }

/-- Embedding of `handleSessionError()`: disconnects (after a toast) only
while the connection flag is up. -/
def handleSessionError (s : MonState) : MonState :=
  if s.isConnected then disconnect s else s

/-- Embedding of `handlePageClosed()`: registered for both the page `close` and `crash`
events; disconnects (after a toast) only while the connection flag is up. -/
def handlePageClosed (s : MonState) : MonState :=
  if s.isConnected then disconnect s else s

/-- Failure of the periodic liveness probe: the catch in the interval
callback cancels the interval and runs the session-error path. -/
def healthCheckFail (s : MonState) : MonState :=
  handleSessionError (clearHealthCheck s)

/-- Handler of a `Runtime.consoleAPICalled` event. -/
def handleConsoleAPICalled (ty : String) (args : List RemoteObject)
    (now : Nat) (s : MonState) : MonState :=
  pushConsoleLog (normalizeConsoleEvent (ConsoleEvent.apiCalled ty args now)) s

/-- Handler of a `Log.entryAdded` event. -/
def handleLogEntryAdded (level : String) (text : String) (now : Nat)
    (s : MonState) : MonState :=
  pushConsoleLog (normalizeConsoleEvent (ConsoleEvent.entryAdded level text now)) s

/-- Dispatch of one console protocol event. -/
def handleConsoleEvent : ConsoleEvent → MonState → MonState
  | .apiCalled ty args now, s => handleConsoleAPICalled ty args now s
  | .entryAdded level text now, s => handleLogEntryAdded level text now s

/-- Arrival-order processing of a sequence of console protocol events. -/
def processConsoleEvents (evs : List ConsoleEvent) (s : MonState) : MonState :=
  evs.foldl (fun s e => handleConsoleEvent e s) s

/-- Handler of a `Network.responseReceived` event: real URL and status, no
error field. -/
def handleResponseReceived (url : String) (status : Nat) (now : Nat)
    (s : MonState) : MonState :=
  pushNetworkLog { url := url, status := status, error := none, timestamp := now } s

/-- Handler of a `Network.loadingFailed` event: sentinel URL, zero status,
and the protocol-supplied failure reason. -/
def handleLoadingFailed (errorText : String) (now : Nat) (s : MonState) :
    MonState :=
  pushNetworkLog
    { url := "Failed request", status := 0, error := some errorText,
      timestamp := now } s

/-- Candidate info built during page enumeration: a failed title or URL read
falls back to empty strings, and the identity equals the URL. -/
def pageInfo (p : PageStub) : MonitoredPage :=
  let t := if p.readOk then p.title else ""
  let u := if p.readOk then p.url else ""
  { title := t, url := u, id := u }

/-- Embedding of `setupEventListeners`: installs the liveness interval and
registers the protocol event handlers (the handlers are modelled as the
event functions above). -/
def setupEventListeners (s : MonState) : MonState :=
  { s with healthCheck := true }

/-- Embedding of `monitorPage(page, info)`: tears down any prior session, opens a protocol
channel to the chosen page (counted), enables the four protocol domains as a
batch — on failure shows an error, disconnects and returns — then installs
the session, recomputes the connection flag and registers listeners. -/
def monitorPage (info : MonitoredPage) (s : MonState) : MonState :=
  let s1 := if s.activePage.isSome then stopMonitoring s else s
  let s2 := { s1 with openCount := s1.openCount + 1 }
  if ¬s2.enableOk then disconnect s2
  else
    setupEventListeners (updateConnectionState { s2 with activePage := some info })

/-- Embedding of `connect()`: connects to the debugging endpoint (on failure
the catch shows an error and disconnects), enumerates pages (none at all is
a failure that also lands in the catch), asks the caller to pick one (no
selection aborts with no further state change) and hands the chosen page to
`monitorPage`. -/
def connect (s : MonState) : MonState :=
  if ¬s.connectOk then disconnect s
  else
    let s1 := { s with browser := true }
    if s1.pages.isEmpty then disconnect s1
    else
      match s1.selection with
      | none => s1
      | some i =>
        match s1.pages[i]? with
        | none => s1
        | some p => monitorPage (pageInfo p) s1

/-- Monitor state right after construction, with the given stub outcomes:
no browser connection, no session, flag down, no interval, empty store,
counters zeroed. -/
def initState (connectOk : Bool) (pages : List PageStub)
    (selection : Option Nat) (enableOk : Bool) : MonState :=
  { connectOk := connectOk, pages := pages, selection := selection,
    enableOk := enableOk, detachOk := true, browserDisconnectOk := true,
    browser := false, activePage := none, isConnected := false,
    healthCheck := false, consoleMem := fun _ => [],
    networkMem := fun _ => [], consoleRef := 0, networkRef := 0,
    openCount := 0, closeCount := 0, disconnectFires := 0,
    connStateFires := 0, newLogFires := 0 }

/-- A connected monitor state, used as a concrete witness input. -/
def connectedState : MonState :=
  { initState true [] none true with
    browser := true,
    activePage := some { title := "t", url := "u", id := "u" },
    isConnected := true,
    healthCheck := true }

/-- Sample console record used by the snapshot counterexample. -/
def sampleLog : BrowserLog :=
  { type := LogType.log, text := "hello", timestamp := 1 }

/-- Fresh monitor state used by the snapshot counterexample. -/
def probeState : MonState := initState true [] none true

/-- Transport stub for the C3 counterexample: endpoint reachable, one
readable page, the caller picks it, and the domain-enable batch fails. -/
def enableFailState : MonState :=
  initState true [{ readOk := true, title := "t", url := "u" }] (some 0) false

theorem sendInv_bound (s : SendState) (h : SendInv s) :
    s.imgVerifyCalls ≤ 3 ∧ s.txtVerifyCalls ≤ 3 := by
  obtain ⟨⟨i1, i2, i3⟩, ⟨t1, t2, t3⟩⟩ := h
  simp only [maxRetries] at i3 t3
  cases hI : s.imageSuccess <;> cases hT : s.textSuccess <;> simp_all <;> omega

theorem openComposer_frame (st : SendStubs) (s : SendState) :
    (openComposer st s).imageAttempt = s.imageAttempt ∧
    (openComposer st s).textAttempt = s.textAttempt ∧
    (openComposer st s).imageSuccess = s.imageSuccess ∧
    (openComposer st s).textSuccess = s.textSuccess ∧
    (openComposer st s).imgVerifyCalls = s.imgVerifyCalls ∧
    (openComposer st s).txtVerifyCalls = s.txtVerifyCalls ∧
    (openComposer st s).openCmdCount ≤ s.openCmdCount + 1 := by
  unfold openComposer
  split
  · simp
  · split <;> simp

theorem imageStep_frame (st : SendStubs) (scr : Bool) (s : SendState) :
    (imageStep st scr s).1.textAttempt = s.textAttempt ∧
    (imageStep st scr s).1.textSuccess = s.textSuccess ∧
    (imageStep st scr s).1.txtVerifyCalls = s.txtVerifyCalls ∧
    (imageStep st scr s).1.openCmdCount = s.openCmdCount ∧
    (imageStep st scr s).1.composerOpened = s.composerOpened := by
  unfold imageStep
  split
  · split
    · simp
    · split <;> simp
  · simp

theorem textStep_frame (st : SendStubs) (lg : Bool) (s : SendState) :
    (textStep st lg s).1.imageAttempt = s.imageAttempt ∧
    (textStep st lg s).1.imageSuccess = s.imageSuccess ∧
    (textStep st lg s).1.imgVerifyCalls = s.imgVerifyCalls ∧
    (textStep st lg s).1.openCmdCount = s.openCmdCount ∧
    (textStep st lg s).1.composerOpened = s.composerOpened := by
  unfold textStep
  split
  · split
    · simp
    · split <;> simp
  · simp

theorem imageStep_inv (st : SendStubs) (scr : Bool) (s : SendState)
    (h : ImgInv s) :
    (imageStep st scr s).1.imgVerifyCalls ≤ 3 ∧
    ((imageStep st scr s).2 = none → ImgInv (imageStep st scr s).1) := by
  obtain ⟨i1, i2, i3⟩ := h
  unfold imageStep ImgInv
  simp only [maxRetries] at *
  split
  · next hreq =>
    have hI : s.imageSuccess = false := by simpa using hreq.2
    split
    · simp_all
    · split
      · simp_all
      · simp_all; omega
  · constructor
    · cases hI : s.imageSuccess
      all_goals simp_all
      all_goals try omega
    · intro _; exact ⟨i1, i2, i3⟩

theorem textStep_inv (st : SendStubs) (lg : Bool) (s : SendState)
    (h : TxtInv s) :
    (textStep st lg s).1.txtVerifyCalls ≤ 3 ∧
    ((textStep st lg s).2 = none → TxtInv (textStep st lg s).1) := by
  obtain ⟨t1, t2, t3⟩ := h
  unfold textStep TxtInv
  simp only [maxRetries] at *
  split
  · next hreq =>
    have hT : s.textSuccess = false := by simpa using hreq.2
    split
    · simp_all
    · split
      · simp_all
      · simp_all; omega
  · constructor
    · cases hT : s.textSuccess
      all_goals simp_all
      all_goals try omega
    · intro _; exact ⟨t1, t2, t3⟩

theorem sendIter_inv (st : SendStubs) (scr lg : Bool) (s : SendState)
    (h : SendInv s) :
    (sendIter st scr lg s).state.imgVerifyCalls ≤ 3 ∧
    (sendIter st scr lg s).state.txtVerifyCalls ≤ 3 ∧
    ∀ s1, sendIter st scr lg s = IterOut.again s1 → SendInv s1 := by
  obtain ⟨hi, ht⟩ := h
  obtain ⟨o1, o2, o3, o4, o5, o6, o7⟩ := openComposer_frame st s
  have hio : ImgInv (openComposer st s) := by
    unfold ImgInv at hi ⊢
    rw [o1, o3, o5]
    exact hi
  have hto : TxtInv (openComposer st s) := by
    unfold TxtInv at ht ⊢
    rw [o2, o4, o6]
    exact ht
  obtain ⟨f1, f2, f3, f4, f5⟩ := imageStep_frame st scr (openComposer st s)
  obtain ⟨ibnd, iinv⟩ := imageStep_inv st scr (openComposer st s) hio
  have hti : TxtInv (imageStep st scr (openComposer st s)).1 := by
    unfold TxtInv at hto ⊢
    rw [f1, f2, f3]
    exact hto
  obtain ⟨g1, g2, g3, g4, g5⟩ :=
    textStep_frame st lg (imageStep st scr (openComposer st s)).1
  obtain ⟨tbnd, tinv⟩ :=
    textStep_inv st lg (imageStep st scr (openComposer st s)).1 hti
  have htb : (imageStep st scr (openComposer st s)).1.txtVerifyCalls ≤ 3 := by
    rw [f3, o6]
    exact (sendInv_bound s ⟨hi, ht⟩).2
  have gib :
      (textStep st lg (imageStep st scr (openComposer st s)).1).1.imgVerifyCalls
        ≤ 3 := by
    rw [g3]; exact ibnd
  simp only [sendIter]
  cases hA : (imageStep st scr (openComposer st s)).2 with
  | some msg =>
    simp only [IterOut.state]
    refine ⟨ibnd, htb, ?_⟩
    intro s1 hcon
    exact absurd hcon (by simp)
  | none =>
    have hii : ImgInv (imageStep st scr (openComposer st s)).1 := iinv hA
    have gii : ImgInv
        (textStep st lg (imageStep st scr (openComposer st s)).1).1 := by
      unfold ImgInv at hii ⊢
      rw [g1, g2, g3]
      exact hii
    simp only []
    cases hB : (textStep st lg (imageStep st scr (openComposer st s)).1).2 with
    | some msg =>
      simp only [IterOut.state]
      refine ⟨gib, tbnd, ?_⟩
      intro s1 hcon
      exact absurd hcon (by simp)
    | none =>
      have gti : TxtInv
          (textStep st lg (imageStep st scr (openComposer st s)).1).1 :=
        tinv hB
      simp only []
      split
      · simp only [IterOut.state]
        refine ⟨gib, tbnd, ?_⟩
        intro s1 hcon
        exact absurd hcon (by simp)
      · simp only [IterOut.state]
        refine ⟨gib, tbnd, ?_⟩
        intro s1 hcon
        have hs1 :
            s1 = { (textStep st lg (imageStep st scr
                      (openComposer st s)).1).1 with composerOpened := false } := by
          have := hcon
          injection this with h1
          exact h1.symm
        subst hs1
        constructor
        · unfold ImgInv at gii ⊢
          simpa using gii
        · unfold TxtInv at gti ⊢
          simpa using gti

theorem sendIter_open (st : SendStubs) (scr lg : Bool) (s : SendState) :
    (sendIter st scr lg s).state.openCmdCount ≤ s.openCmdCount + 1 ∧
    (sendIter st scr lg s).state.composerOpened = false := by
  obtain ⟨_, _, _, _, _, _, o7⟩ := openComposer_frame st s
  obtain ⟨_, _, _, f4, _⟩ := imageStep_frame st scr (openComposer st s)
  obtain ⟨_, _, _, g4, _⟩ :=
    textStep_frame st lg (imageStep st scr (openComposer st s)).1
  have hopen :
      (textStep st lg (imageStep st scr (openComposer st s)).1).1.openCmdCount
        ≤ s.openCmdCount + 1 := by
    rw [g4, f4]; exact o7
  have hopen2 :
      (imageStep st scr (openComposer st s)).1.openCmdCount
        ≤ s.openCmdCount + 1 := by
    rw [f4]; exact o7
  simp only [sendIter]
  cases hA : (imageStep st scr (openComposer st s)).2 with
  | some msg => exact ⟨hopen2, rfl⟩
  | none =>
    simp only []
    cases hB : (textStep st lg (imageStep st scr (openComposer st s)).1).2 with
    | some msg => exact ⟨hopen, rfl⟩
    | none =>
      simp only []
      split
      · exact ⟨hopen, rfl⟩
      · exact ⟨hopen, rfl⟩

theorem sendLoop_calls_bound (st : SendStubs) (scr lg : Bool) (fuel : Nat) :
    ∀ s : SendState, SendInv s →
      (sendLoop st scr lg fuel s).1.imgVerifyCalls ≤ 3 ∧
      (sendLoop st scr lg fuel s).1.txtVerifyCalls ≤ 3 := by
  induction fuel with
  | zero =>
    intro s h
    simpa only [sendLoop] using sendInv_bound s h
  | succ n ih =>
    intro s h
    rw [sendLoop]
    split
    · cases hiter : sendIter st scr lg s with
      | again s1 =>
        simp only [hiter]
        exact ih s1 ((sendIter_inv st scr lg s h).2.2 s1 hiter)
      | done s1 =>
        have hb := sendIter_inv st scr lg s h
        rw [hiter] at hb
        simpa only [IterOut.state] using ⟨hb.1, hb.2.1⟩
      | failed msg s1 =>
        have hb := sendIter_inv st scr lg s h
        rw [hiter] at hb
        simpa only [IterOut.state] using ⟨hb.1, hb.2.1⟩
    · exact sendInv_bound s h

theorem sendLoop_closed (st : SendStubs) (scr lg : Bool) (fuel : Nat) :
    ∀ s : SendState, s.composerOpened = false →
      (sendLoop st scr lg fuel s).1.composerOpened = false := by
  induction fuel with
  | zero =>
    intro s h
    simpa only [sendLoop] using h
  | succ n ih =>
    intro s h
    rw [sendLoop]
    split
    · cases hiter : sendIter st scr lg s with
      | again s1 =>
        simp only [hiter]
        have hc := (sendIter_open st scr lg s).2
        rw [hiter] at hc
        exact ih s1 hc
      | done s1 =>
        have hc := (sendIter_open st scr lg s).2
        rw [hiter] at hc
        simpa only [IterOut.state] using hc
      | failed msg s1 =>
        have hc := (sendIter_open st scr lg s).2
        rw [hiter] at hc
        simpa only [IterOut.state] using hc
    · exact h

theorem sendInv_init : SendInv initSendState := by
  constructor
  · refine ⟨fun _ => rfl, fun hc => ?_, by simp [initSendState, maxRetries]⟩
    simp [initSendState] at hc
  · refine ⟨fun _ => rfl, fun hc => ?_, by simp [initSendState, maxRetries]⟩
    simp [initSendState] at hc

/-- C1: the delivery operation `sendToComposer` makes at most 3 verification
attempts per requested artifact (2 retries beyond the first attempt).  With a
clipboard stub whose verification always fails, the call raises the delivery
failure for that artifact after exactly 3 attempts; with a stub that fails
exactly twice and succeeds on the third attempt, delivery of that artifact
succeeds.  The first conjunct is the at-most-3 bound for arbitrary stubs and
requests; the remaining conjuncts are the two stub scenarios, for the
screenshot artifact (`stA`, `stB`) and for the log bundle (`stC`, `stD`). -/
theorem sendToComposer_retry_budget
    (st stA stB stC stD : SendStubs) (scr lg : Bool)
    (hA1 : ∀ n, stA.openOk n = true) (hA2 : ∀ n, stA.imgVerify n = false)
    (hB1 : ∀ n, stB.openOk n = true)
    (hB2 : stB.imgVerify 0 = false) (hB3 : stB.imgVerify 1 = false)
    (hB4 : stB.imgVerify 2 = true)
    (hC1 : ∀ n, stC.openOk n = true) (hC2 : ∀ n, stC.txtVerify n = false)
    (hD1 : ∀ n, stD.openOk n = true)
    (hD2 : stD.txtVerify 0 = false) (hD3 : stD.txtVerify 1 = false)
    (hD4 : stD.txtVerify 2 = true) :
    ((sendToComposer st scr lg).1.imgVerifyCalls ≤ 3 ∧
      (sendToComposer st scr lg).1.txtVerifyCalls ≤ 3) ∧
    ((sendToComposer stA true false).2 = SendResult.err imageFailMsg ∧
      (sendToComposer stA true false).1.imgVerifyCalls = 3) ∧
    ((sendToComposer stB true false).2 = SendResult.ok ∧
      (sendToComposer stB true false).1.imgVerifyCalls = 3) ∧
    ((sendToComposer stC false true).2 = SendResult.err textFailMsg ∧
      (sendToComposer stC false true).1.txtVerifyCalls = 3) ∧
    ((sendToComposer stD false true).2 = SendResult.ok ∧
      (sendToComposer stD false true).1.txtVerifyCalls = 3) := by
  refine ⟨sendLoop_calls_bound st scr lg sendFuel initSendState sendInv_init,
    ?_, ?_, ?_, ?_⟩
  · obtain ⟨fA, gA, tA⟩ := stA
    have hf : fA = fun _ => true := funext hA1
    have hg : gA = fun _ => false := funext hA2
    subst hf
    subst hg
    exact ⟨rfl, rfl⟩
  · obtain ⟨fB, gB, tB⟩ := stB
    have hf : fB = fun _ => true := funext hB1
    subst hf
    have hg : gB = fun n => match n with
        | 0 => false
        | 1 => false
        | 2 => true
        | m + 3 => gB (m + 3) := by
      funext n
      match n with
      | 0 => exact hB2
      | 1 => exact hB3
      | 2 => exact hB4
      | m + 3 => rfl
    rw [hg]
    exact ⟨rfl, rfl⟩
  · obtain ⟨fC, gC, tC⟩ := stC
    have hf : fC = fun _ => true := funext hC1
    have ht : tC = fun _ => false := funext hC2
    subst hf
    subst ht
    exact ⟨rfl, rfl⟩
  · obtain ⟨fD, gD, tD⟩ := stD
    have hf : fD = fun _ => true := funext hD1
    subst hf
    have ht : tD = fun n => match n with
        | 0 => false
        | 1 => false
        | 2 => true
        | m + 3 => tD (m + 3) := by
      funext n
      match n with
      | 0 => exact hD2
      | 1 => exact hD3
      | 2 => exact hD4
      | m + 3 => rfl
    rw [ht]
    exact ⟨rfl, rfl⟩

/-- Witness for C1: the retry-budget theorem applied to concrete stubs
(always succeed; image always fails; image fails twice then succeeds; text
always fails; text fails twice then succeeds). -/
theorem sendToComposer_retry_budget_witness :
    ((sendToComposer ⟨fun _ => true, fun _ => true, fun _ => true⟩ true
        true).1.imgVerifyCalls ≤ 3 ∧
      (sendToComposer ⟨fun _ => true, fun _ => true, fun _ => true⟩ true
        true).1.txtVerifyCalls ≤ 3) ∧
    ((sendToComposer ⟨fun _ => true, fun _ => false, fun _ => true⟩ true
        false).2 = SendResult.err imageFailMsg ∧
      (sendToComposer ⟨fun _ => true, fun _ => false, fun _ => true⟩ true
        false).1.imgVerifyCalls = 3) ∧
    ((sendToComposer ⟨fun _ => true, fun n => decide (2 ≤ n), fun _ => true⟩
        true false).2 = SendResult.ok ∧
      (sendToComposer ⟨fun _ => true, fun n => decide (2 ≤ n), fun _ => true⟩
        true false).1.imgVerifyCalls = 3) ∧
    ((sendToComposer ⟨fun _ => true, fun _ => true, fun _ => false⟩ false
        true).2 = SendResult.err textFailMsg ∧
      (sendToComposer ⟨fun _ => true, fun _ => true, fun _ => false⟩ false
        true).1.txtVerifyCalls = 3) ∧
    ((sendToComposer ⟨fun _ => true, fun _ => true, fun n => decide (2 ≤ n)⟩
        false true).2 = SendResult.ok ∧
      (sendToComposer ⟨fun _ => true, fun _ => true, fun n => decide (2 ≤ n)⟩
        false true).1.txtVerifyCalls = 3) :=
  sendToComposer_retry_budget
    ⟨fun _ => true, fun _ => true, fun _ => true⟩
    ⟨fun _ => true, fun _ => false, fun _ => true⟩
    ⟨fun _ => true, fun n => decide (2 ≤ n), fun _ => true⟩
    ⟨fun _ => true, fun _ => true, fun _ => false⟩
    ⟨fun _ => true, fun _ => true, fun n => decide (2 ≤ n)⟩
    true true
    (fun _ => rfl) (fun _ => rfl)
    (fun _ => rfl) rfl rfl rfl
    (fun _ => rfl) (fun _ => rfl)
    (fun _ => rfl) rfl rfl rfl

/-- C6 (amended): within a `sendToComposer` call the destination-open step
executes the open command at most once per loop iteration, but the
`composerOpened` marker is reset by the `finally` clause at the end of every
iteration, so later retry iterations of the same call re-execute the open
command rather than acting as a no-op; and the final state of every call —
in particular one that propagates an unrecoverable error — has the marker
released, so a subsequent call starts from a clean state. -/
theorem sendToComposer_open_marker (st : SendStubs) (scr lg : Bool) :
    (∀ s : SendState,
        (sendIter st scr lg s).state.openCmdCount ≤ s.openCmdCount + 1 ∧
        (sendIter st scr lg s).state.composerOpened = false) ∧
    (sendToComposer st scr lg).1.composerOpened = false :=
  ⟨fun s => sendIter_open st scr lg s,
    sendLoop_closed st scr lg sendFuel initSendState rfl⟩

/-- C6 counterexample: a screenshot-only call whose image verification fails
once and then succeeds takes two loop iterations and executes the
destination-open command in both of them (`openCmdCount = 2`), refuting the
claim that the open step executes the open command at most once per call and
is a no-op on later retry iterations of the same call. -/
theorem sendToComposer_opens_twice :
    (sendToComposer openTwiceStub true false).2 = SendResult.ok ∧
    (sendToComposer openTwiceStub true false).1.openCmdCount = 2 ∧
    ¬(sendToComposer openTwiceStub true false).1.openCmdCount ≤ 1 :=
  ⟨rfl, rfl, by decide⟩

theorem clearHealthCheck_frame (s : MonState) :
    (clearHealthCheck s).isConnected = s.isConnected ∧
    (clearHealthCheck s).disconnectFires = s.disconnectFires ∧
    (clearHealthCheck s).activePage = s.activePage ∧
    (clearHealthCheck s).browser = s.browser ∧
    (clearHealthCheck s).connStateFires = s.connStateFires ∧
    (clearHealthCheck s).closeCount = s.closeCount := by
  unfold clearHealthCheck
  split <;> simp

theorem clearHealthCheck_cleared (s : MonState) :
    (clearHealthCheck s).healthCheck = false := by
  unfold clearHealthCheck
  split
  · rfl
  · next h => simpa using h

theorem stopMonitoring_state (s : MonState) :
    (stopMonitoring s).activePage = none ∧
    (stopMonitoring s).browser = s.browser ∧
    (stopMonitoring s).healthCheck = s.healthCheck ∧
    (stopMonitoring s).isConnected = s.isConnected ∧
    (stopMonitoring s).disconnectFires = s.disconnectFires ∧
    (stopMonitoring s).connStateFires = s.connStateFires := by
  unfold stopMonitoring clientDetach
  split
  · simp
  · next h =>
    have hap : s.activePage = none := by
      cases hv : s.activePage
      · rfl
      · rw [hv] at h; simp at h
    exact ⟨hap, rfl, rfl, rfl, rfl, rfl⟩

theorem disconnect_state (s : MonState) :
    (disconnect s).activePage = none ∧
    (disconnect s).isConnected = false ∧
    (disconnect s).disconnectFires = s.disconnectFires + 1 ∧
    (disconnect s).connStateFires = s.connStateFires + 1 ∧
    (disconnect s).browser = false ∧
    (disconnect s).healthCheck = false := by
  obtain ⟨c1, c2, c3, c4, c5, c6⟩ := clearHealthCheck_frame s
  have c7 := clearHealthCheck_cleared s
  obtain ⟨m1, m2, m3, m4, m5, m6⟩ := stopMonitoring_state (clearHealthCheck s)
  unfold disconnect updateConnectionState browserDisconnectOp
  simp only []
  split
  · simp [m1, m3, c7, m5, c2, m6, c5]
  · next h =>
    refine ⟨m1, by simp [m1], ?_, ?_, ?_, ?_⟩
    · simp [m5, c2]
    · simp [m6, c5]
    · simpa using h
    · simp [m3, c7]

/-- C2 counterexample: `getLogs()` hands out the live array references, not a
copy — a console record pushed after the call changes what a previously
returned `LogData` contains, refuting the claim that later appends do not
change a previously returned snapshot. -/
theorem getLogs_not_snapshot :
    readLogs (pushConsoleLog sampleLog probeState) (getLogs probeState).1 ≠
      readLogs probeState (getLogs probeState).1 := by decide

/-- C2 (amended): the `LogData` returned by `getLogs()` is a live view of the
buffers, not a copy: a record appended after the call is visible through a
previously returned `LogData`; however `clearLogs()` replaces the buffer
arrays, so a clear does not change a previously returned `LogData`; and
taking the snapshot itself never mutates the monitor state. -/
theorem getLogs_aliasing (s : MonState) (l : BrowserLog) (n : NetworkRequest) :
    (readLogs (pushConsoleLog l s) (getLogs s).1).1
      = (readLogs s (getLogs s).1).1 ++ [l] ∧
    (readLogs (pushNetworkLog n s) (getLogs s).1).2
      = (readLogs s (getLogs s).1).2 ++ [n] ∧
    readLogs (clearLogs s) (getLogs s).1 = readLogs s (getLogs s).1 ∧
    (getLogs s).2 = s := by
  refine ⟨?_, ?_, ?_, rfl⟩
  · simp [readLogs, pushConsoleLog, getLogs, memWrite]
  · simp [readLogs, pushNetworkLog, getLogs, memWrite]
  · unfold readLogs clearLogs getLogs memWrite
    simp only []
    rw [if_neg (by omega), if_neg (by omega)]

/-- C9: `clearLogs()` empties both buffers — a `getLogs()` right after a
clear reads empty console and network sequences whatever the prior volume —
and leaves the session state (active page, connection flag, health-check
timer, browser handle) unchanged. -/
theorem clearLogs_empties (s : MonState) :
    readLogs (clearLogs s) (getLogs (clearLogs s)).1 = ([], []) ∧
    (clearLogs s).activePage = s.activePage ∧
    (clearLogs s).isConnected = s.isConnected ∧
    (clearLogs s).healthCheck = s.healthCheck ∧
    (clearLogs s).browser = s.browser := by
  refine ⟨?_, rfl, rfl, rfl, rfl⟩
  simp [readLogs, clearLogs, getLogs, memWrite]

/-- C4: a `Network.loadingFailed` protocol event appends exactly one record
with status 0, the exact sentinel URL `"Failed request"`, and the
protocol-supplied failure reason in `error`; the console buffer is
untouched. -/
theorem loadingFailed_record (e : String) (t : Nat) (s : MonState) :
    (readLogs (handleLoadingFailed e t s)
        (getLogs (handleLoadingFailed e t s)).1).2
      = (readLogs s (getLogs s).1).2 ++
        [{ url := "Failed request", status := 0, error := some e,
           timestamp := t }] ∧
    (readLogs (handleLoadingFailed e t s)
        (getLogs (handleLoadingFailed e t s)).1).1
      = (readLogs s (getLogs s).1).1 := by
  constructor
  · simp [readLogs, handleLoadingFailed, pushNetworkLog, getLogs, memWrite]
  · simp [readLogs, handleLoadingFailed, pushNetworkLog, getLogs, memWrite]

/-- C5: a liveness-check failure while the session is connected fires the
disconnected channel exactly once, and a subsequent page-close or crash
event for the already-torn-down session does not fire it again. -/
theorem healthCheckFail_single_notification (s : MonState)
    (h : s.isConnected = true) :
    (healthCheckFail s).disconnectFires = s.disconnectFires + 1 ∧
    (handlePageClosed (healthCheckFail s)).disconnectFires
      = (healthCheckFail s).disconnectFires := by
  obtain ⟨c1, c2, c3, c4, c5, c6⟩ := clearHealthCheck_frame s
  obtain ⟨d1, d2, d3, d4, d5, d6⟩ := disconnect_state (clearHealthCheck s)
  have hfail : healthCheckFail s = disconnect (clearHealthCheck s) := by
    unfold healthCheckFail handleSessionError
    rw [c1, h]
    simp
  constructor
  · rw [hfail, d3, c2]
  · rw [hfail]
    unfold handlePageClosed
    rw [d2]
    simp

/-- Witness for C5 at a concrete connected state. -/
theorem healthCheckFail_single_notification_witness :
    (healthCheckFail connectedState).disconnectFires
        = connectedState.disconnectFires + 1 ∧
    (handlePageClosed (healthCheckFail connectedState)).disconnectFires
      = (healthCheckFail connectedState).disconnectFires :=
  healthCheckFail_single_notification connectedState rfl

/-- C10: every `disconnect()` call — also one with no session and no browser
connection — fires the connection-state-change channel and the distinct
disconnected channel exactly once each. -/
theorem disconnect_always_notifies (s : MonState) :
    (disconnect s).connStateFires = s.connStateFires + 1 ∧
    (disconnect s).disconnectFires = s.disconnectFires + 1 :=
  ⟨(disconnect_state s).2.2.2.1, (disconnect_state s).2.2.1⟩

/-- C8: disconnecting with no active session is a safe no-op: every fallible
call inside `disconnect()` is wrapped in a catch (so the operation never
raises), and with no session, no browser connection and no interval it
touches no session state, performs no channel detach and leaves the buffers
untouched. -/
theorem disconnect_no_session_noop (s : MonState)
    (hp : s.activePage = none) (hb : s.browser = false)
    (hh : s.healthCheck = false) :
    (disconnect s).activePage = none ∧
    (disconnect s).browser = false ∧
    (disconnect s).healthCheck = false ∧
    (disconnect s).isConnected = false ∧
    (disconnect s).closeCount = s.closeCount ∧
    (disconnect s).openCount = s.openCount ∧
    (disconnect s).consoleMem = s.consoleMem ∧
    (disconnect s).networkMem = s.networkMem ∧
    (disconnect s).consoleRef = s.consoleRef ∧
    (disconnect s).networkRef = s.networkRef := by
  unfold disconnect updateConnectionState stopMonitoring clearHealthCheck
    clientDetach browserDisconnectOp
  simp [hp, hb, hh]

/-- Witness for C8 at the freshly constructed monitor state. -/
theorem disconnect_no_session_noop_witness :
    (disconnect (initState true [] none true)).activePage = none ∧
    (disconnect (initState true [] none true)).browser = false ∧
    (disconnect (initState true [] none true)).healthCheck = false ∧
    (disconnect (initState true [] none true)).isConnected = false ∧
    (disconnect (initState true [] none true)).closeCount
      = (initState true [] none true).closeCount ∧
    (disconnect (initState true [] none true)).openCount
      = (initState true [] none true).openCount ∧
    (disconnect (initState true [] none true)).consoleMem
      = (initState true [] none true).consoleMem ∧
    (disconnect (initState true [] none true)).networkMem
      = (initState true [] none true).networkMem ∧
    (disconnect (initState true [] none true)).consoleRef
      = (initState true [] none true).consoleRef ∧
    (disconnect (initState true [] none true)).networkRef
      = (initState true [] none true).networkRef :=
  disconnect_no_session_noop (initState true [] none true) rfl rfl rfl

/-- C3 counterexample: after a connect that fails at the domain-enable step,
`isConnected()` is false but the protocol channel opened during the failed
attempt is never detached — one channel was opened and zero were closed —
refuting the claim that close call count equals open call count after every
failed initialization. -/
theorem connect_enable_failure_leaks :
    (connect enableFailState).isConnected = false ∧
    (connect enableFailState).openCount = 1 ∧
    (connect enableFailState).closeCount = 0 ∧
    ¬(connect enableFailState).closeCount
        = (connect enableFailState).openCount := by decide

/-- C3 (amended): after `connect()` fails, `isConnected()` is false and no
half-initialized session survives; for the endpoint-unreachable and no-pages
failures no protocol channel was opened (open and close counts both zero),
but when the domain-enable batch fails the one channel opened during the
failed attempt is not detached, so the close count stays one below the open
count. -/
theorem connect_failure_no_half_state
    (pages : List PageStub) (sel : Option Nat) (eo co : Bool)
    (i : Nat) (p : PageStub) :
    ((connect (initState false pages sel eo)).isConnected = false ∧
      (connect (initState false pages sel eo)).openCount = 0 ∧
      (connect (initState false pages sel eo)).closeCount = 0) ∧
    ((connect (initState co [] sel eo)).isConnected = false ∧
      (connect (initState co [] sel eo)).openCount = 0 ∧
      (connect (initState co [] sel eo)).closeCount = 0) ∧
    (pages[i]? = some p →
      (connect (initState true pages (some i) false)).isConnected = false ∧
      (connect (initState true pages (some i) false)).openCount = 1 ∧
      (connect (initState true pages (some i) false)).closeCount = 0) := by
  refine ⟨?_, ?_, ?_⟩
  · unfold connect disconnect updateConnectionState stopMonitoring
      clearHealthCheck clientDetach browserDisconnectOp initState
    simp
  · cases co <;>
      (unfold connect disconnect updateConnectionState stopMonitoring
        clearHealthCheck clientDetach browserDisconnectOp initState
       simp)
  · intro hget
    cases pages with
    | nil => simp at hget
    | cons p0 rest =>
      unfold connect monitorPage setupEventListeners disconnect
        updateConnectionState stopMonitoring clearHealthCheck clientDetach
        browserDisconnectOp initState
      simp [hget]

/-- Witness for C3 at concrete transports: unreachable endpoint, reachable
endpoint with no pages, and a one-page transport whose domain enable
fails. -/
theorem connect_failure_no_half_state_witness :
    ((connect (initState false [] none true)).isConnected = false ∧
      (connect (initState false [] none true)).openCount = 0 ∧
      (connect (initState false [] none true)).closeCount = 0) ∧
    ((connect (initState true [] none true)).isConnected = false ∧
      (connect (initState true [] none true)).openCount = 0 ∧
      (connect (initState true [] none true)).closeCount = 0) ∧
    ((connect (initState true [{ readOk := true, title := "t", url := "u" }]
        (some 0) false)).isConnected = false ∧
      (connect (initState true [{ readOk := true, title := "t", url := "u" }]
        (some 0) false)).openCount = 1 ∧
      (connect (initState true [{ readOk := true, title := "t", url := "u" }]
        (some 0) false)).closeCount = 0) :=
  ⟨(connect_failure_no_half_state [] none true false 0
      { readOk := true, title := "t", url := "u" }).1,
    (connect_failure_no_half_state
      [{ readOk := true, title := "t", url := "u" }] none true true 0
      { readOk := true, title := "t", url := "u" }).2.1,
    (connect_failure_no_half_state
      [{ readOk := true, title := "t", url := "u" }] none true true 0
      { readOk := true, title := "t", url := "u" }).2.2 rfl⟩

theorem handleConsoleEvent_state (e : ConsoleEvent) (s : MonState) :
    (handleConsoleEvent e s).consoleRef = s.consoleRef ∧
    (handleConsoleEvent e s).consoleMem s.consoleRef
      = s.consoleMem s.consoleRef ++ [normalizeConsoleEvent e] := by
  cases e <;>
    simp [handleConsoleEvent, handleConsoleAPICalled, handleLogEntryAdded,
      pushConsoleLog, memWrite]

/-- C7: processing any sequence of console protocol events appends the
normalized records to `getLogs().console` in arrival order, and the length
grows by exactly the number of normalized events (every event normalizes
successfully). -/
theorem consoleEvents_order (evs : List ConsoleEvent) (s : MonState) :
    (readLogs (processConsoleEvents evs s)
        (getLogs (processConsoleEvents evs s)).1).1
      = (readLogs s (getLogs s).1).1 ++ evs.map normalizeConsoleEvent ∧
    (readLogs (processConsoleEvents evs s)
        (getLogs (processConsoleEvents evs s)).1).1.length
      = (readLogs s (getLogs s).1).1.length + evs.length := by
  have main : ∀ (l : List ConsoleEvent) (s : MonState),
      (readLogs (processConsoleEvents l s)
          (getLogs (processConsoleEvents l s)).1).1
        = (readLogs s (getLogs s).1).1 ++ l.map normalizeConsoleEvent := by
    intro l
    induction l with
    | nil => intro s; simp [processConsoleEvents, readLogs, getLogs]
    | cons e tl ih =>
      intro s
      obtain ⟨h1, h2⟩ := handleConsoleEvent_state e s
      have hfold : processConsoleEvents (e :: tl) s
          = processConsoleEvents tl (handleConsoleEvent e s) := by
        simp [processConsoleEvents]
      rw [hfold, ih (handleConsoleEvent e s)]
      simp [readLogs, getLogs, h1, h2]
  refine ⟨main evs s, ?_⟩
  rw [main evs s]
  simp
